import Mathlib

/-!
Shallow embedding of the `jfabello/simple-timer` package, from
`src/simple-timer-class.js` (the `SimpleTimer` class) and
`src/simple-timer-errors.js` (the error taxonomy).

The JavaScript class keeps five private fields (`#timerTimeout`,
`#timerState`, `#timerEmitter`, `#timerPromise`, `#timerHandle`) and talks to
two environment facilities: `setTimeout`/`clearTimeout` for delayed execution
and `Promise` for the wait handle, wired together through a per-instance
`EventEmitter` with two `once` listeners (`timerup`, `timercancelled`).

The embedding bundles the instance fields with the relevant environment state
into one record, `TimerWorld`:
  * promises are named by `Nat` ids; `resolved` records the first (and, since
    a JS promise settles at most once, the only effective) value each promise
    was resolved with;
  * pending `setTimeout` registrations are named by `Nat` ids; a registration
    sits in `activeTimeouts` from `setTimeout` until it either fires or is
    removed by `clearTimeout`;
  * the two `once` listeners are modelled by the promise id their closure
    captured (`EventEmitter.once` removes a listener before invoking it);
    `none` means no listener is registered for that event.

Node's `EventEmitter.emit` invokes listeners synchronously, and the whole
class runs on the single JS thread, so every method body and listener body is
a plain sequential state transformation.  The only asynchronous event is the
firing of a pending `setTimeout` registration, modelled by `fireTimeout`.
Methods that `throw` return `Except.error (e, w)` carrying the world at the
moment of the throw, so that what a failed call did to the state is visible.
-/

namespace SimpleTimerSpec

/-- The four timer states of the `SimpleTimer` class (the private class
constants `#SET`, `#RUNNING`, `#DONE`, `#CANCELLED`, unique symbols in the
source). -/
inductive TState
  | SET
  | RUNNING
  | DONE
  | CANCELLED
deriving DecidableEq, Repr

/-- The error taxonomy of `simple-timer-errors.js`. -/
inductive TimerError
  | ERROR_SIMPLE_TIMER_TIMEOUT_TYPE_INVALID
  | ERROR_SIMPLE_TIMER_TIMEOUT_OUT_OF_BOUNDS
  | ERROR_SIMPLE_TIMER_NOT_IN_SET_OR_RUNNING_STATES
  | ERROR_SIMPLE_TIMER_NOT_RUNNING
deriving DecidableEq, Repr

/-- A JavaScript value passed as the `timeout` constructor argument.  Finite
JS numbers are modelled as rationals (every IEEE-754 double value is
rational, and the constructor only asks whether the value is an integer and
whether it is below 1); the non-number cases the tests exercise (`undefined`,
strings, arrays/objects) and the non-finite numbers are separate tags. -/
inductive JSValue
  | number (q : ℚ)
  | nan
  | infinityPos
  | infinityNeg
  | undefinedV
  | stringV (s : String)
  | objectV
deriving DecidableEq, Repr

/-- `Number.isInteger(x)`: true exactly when `x` is a finite number whose
value is an integer (for a rational, denominator 1). -/
def jsNumberIsInteger : JSValue → Bool
  | .number q => q.den == 1
  | _ => false

/-- The `timeout < 1` comparison of the constructor.  For numbers it is the
numeric order; `NaN` comparisons are false and `-Infinity < 1` is true.  The
remaining tags would go through JS `ToNumber` coercion, but the constructor
only reaches this comparison after `Number.isInteger(timeout)` has passed, so
only the `number` case is ever exercised. -/
def jsLtOne : JSValue → Bool
  | .number q => decide (q < 1)
  | .nan => false
  | .infinityPos => false
  | .infinityNeg => true
  | _ => false

/-- The numeric value of a JS number tag (only used after the constructor's
`Number.isInteger` guard, so only on the `number` case). -/
def jsNumberValue : JSValue → ℚ
  | .number q => q
  | _ => 0

/-- One `SimpleTimer` instance together with the environment state its
methods interact with.  Fields `timerTimeout`, `timerState`, `timerPromise`,
`timerHandle` are the private instance variables of the class
(`#timerEmitter` is represented by the two listener slots).  The rest is
environment: fresh-id counters for promises and timeouts, the promise
settlement map, and the set of pending `setTimeout` registrations. -/
structure TimerWorld where
  timerTimeout : ℚ
  timerState : TState
  timerPromise : Option Nat
  timerHandle : Option Nat
  nextPromiseId : Nat
  nextTimeoutId : Nat
  resolved : List (Nat × TState)
  activeTimeouts : List Nat
  timerupListener : Option Nat
  timercancelledListener : Option Nat
deriving DecidableEq, Repr

/-- `resolve(v)` on the promise named `p`: a JS promise settles at most once,
so a second resolution of the same promise is a no-op. -/
def resolvePromise (w : TimerWorld) (p : Nat) (v : TState) : TimerWorld :=
  if (w.resolved.lookup p).isSome then w
  else { w with resolved := (p, v) :: w.resolved }

/-- Body of the `timerup` once-listener registered in `start()`:
`#timerHandle = null; #timerPromise = null; #timerState = DONE;`
`resolve(this.#timerState)` — note the resolve reads the state field after
the assignment, so the resolution value is `DONE`.  `p` is the promise whose
`resolve` the listener closure captured. -/
def runTimerupListener (w : TimerWorld) (p : Nat) : TimerWorld :=
  let w1 := { w with timerHandle := none, timerPromise := none,
                     timerState := TState.DONE }
  resolvePromise w1 p w1.timerState

/-- Body of the `timercancelled` once-listener registered in `start()`:
identical to the `timerup` listener except the state written (and hence the
resolution value) is `CANCELLED`. -/
def runTimercancelledListener (w : TimerWorld) (p : Nat) : TimerWorld :=
  let w1 := { w with timerHandle := none, timerPromise := none,
                     timerState := TState.CANCELLED }
  resolvePromise w1 p w1.timerState

/-- `this.#timerEmitter.emit("timerup")`: if a `timerup` once-listener is
registered, remove it and run its body synchronously; otherwise no-op. -/
def emitTimerup (w : TimerWorld) : TimerWorld :=
  match w.timerupListener with
  | none => w
  | some p => runTimerupListener { w with timerupListener := none } p

/-- `this.#timerEmitter.emit("timercancelled")`: same for the
`timercancelled` once-listener. -/
def emitTimercancelled (w : TimerWorld) : TimerWorld :=
  match w.timercancelledListener with
  | none => w
  | some p => runTimercancelledListener { w with timercancelledListener := none } p

/-- `clearTimeout(h)`: removes a pending registration; on `null` (or an
already fired or cleared id) it is a no-op. -/
def jsClearTimeout (w : TimerWorld) (h : Option Nat) : TimerWorld :=
  match h with
  | none => w
  | some hid => { w with activeTimeouts := w.activeTimeouts.erase hid }

/-- The `SimpleTimer` constructor.
`if (Number.isInteger(timeout) !== true) throw TYPE_INVALID;`
`if (timeout < 1) throw OUT_OF_BOUNDS;` then the fields are initialised:
timeout stored, state `SET`, a fresh emitter with no listeners, and
`#timerPromise`, `#timerHandle` left `null`. -/
def construct (timeout : JSValue) : Except TimerError TimerWorld :=
  if jsNumberIsInteger timeout ≠ true then
    .error .ERROR_SIMPLE_TIMER_TIMEOUT_TYPE_INVALID
  else if jsLtOne timeout = true then
    .error .ERROR_SIMPLE_TIMER_TIMEOUT_OUT_OF_BOUNDS
  else
    .ok { timerTimeout := jsNumberValue timeout
          timerState := TState.SET
          timerPromise := none
          timerHandle := none
          nextPromiseId := 0
          nextTimeoutId := 0
          resolved := []
          activeTimeouts := []
          timerupListener := none
          timercancelledListener := none }

/-- `start()`.  If `#timerState === RUNNING`, return `#timerPromise` as is.
If the state is not `SET`, throw `NOT_IN_SET_OR_RUNNING_STATES`.  Otherwise:
create a new promise (its executor runs synchronously and registers the two
`once` listeners, whose closures capture this promise's `resolve`), store it
in `#timerPromise`; call `setTimeout(.., #timerTimeout)` and store the handle
in `#timerHandle`; set `#timerState = RUNNING`; return `#timerPromise`.
The returned value is the JS return value: a promise id or `null`. -/
def start (w : TimerWorld) :
    Except (TimerError × TimerWorld) (TimerWorld × Option Nat) :=
  if w.timerState = TState.RUNNING then
    .ok (w, w.timerPromise)
  else if w.timerState ≠ TState.SET then
    .error (.ERROR_SIMPLE_TIMER_NOT_IN_SET_OR_RUNNING_STATES, w)
  else
    let p := w.nextPromiseId
    let w1 := { w with nextPromiseId := p + 1
                       timerPromise := some p
                       timerupListener := some p
                       timercancelledListener := some p }
    let h := w1.nextTimeoutId
    let w2 := { w1 with nextTimeoutId := h + 1
                        activeTimeouts := h :: w1.activeTimeouts
                        timerHandle := some h }
    let w3 := { w2 with timerState := TState.RUNNING }
    .ok (w3, w3.timerPromise)

/-- `cancel()`.  If `#timerState !== RUNNING`, throw `NOT_RUNNING`.
Otherwise `clearTimeout(this.#timerHandle)`, then
`this.#timerEmitter.emit("timercancelled")` — which runs the listener
synchronously — and finally `return this.#timerPromise`, reading the field
after the listener has run. -/
def cancel (w : TimerWorld) :
    Except (TimerError × TimerWorld) (TimerWorld × Option Nat) :=
  if w.timerState ≠ TState.RUNNING then
    .error (.ERROR_SIMPLE_TIMER_NOT_RUNNING, w)
  else
    let w1 := jsClearTimeout w w.timerHandle
    let w2 := emitTimercancelled w1
    .ok (w2, w2.timerPromise)

/-- The environment fires the pending `setTimeout` registration `h` (only
meaningful while `h` is pending, i.e. `h ∈ activeTimeouts`): the
registration is consumed and its callback
`() => this.#timerEmitter.emit("timerup")` runs. -/
def fireTimeout (w : TimerWorld) (h : Nat) : TimerWorld :=
  emitTimerup { w with activeTimeouts := w.activeTimeouts.erase h }

/-- One observable event on a timer instance: a `start()` or `cancel()` call
(successful or throwing) or the firing of a pending timeout registration. -/
inductive Step : TimerWorld → TimerWorld → Prop
  | startOk (w w' : TimerWorld) (r : Option Nat) :
      start w = .ok (w', r) → Step w w'
  | startErr (w w' : TimerWorld) (e : TimerError) :
      start w = .error (e, w') → Step w w'
  | cancelOk (w w' : TimerWorld) (r : Option Nat) :
      cancel w = .ok (w', r) → Step w w'
  | cancelErr (w w' : TimerWorld) (e : TimerError) :
      cancel w = .error (e, w') → Step w w'
  | fire (w : TimerWorld) (h : Nat) :
      h ∈ w.activeTimeouts → Step w (fireTimeout w h)

/-- Reflexive-transitive closure of `Step`: any finite sequence of events. -/
inductive Steps : TimerWorld → TimerWorld → Prop
  | refl (w : TimerWorld) : Steps w w
  | tail (w w' w'' : TimerWorld) : Steps w w' → Step w' w'' → Steps w w''

/-- A world is reachable when it arises from a successful construction
followed by any finite sequence of events. -/
def Reachable (w : TimerWorld) : Prop :=
  ∃ v w0, construct v = .ok w0 ∧ Steps w0 w

/-- The inductive invariant tying the instance fields to the environment:
in `SET` nothing is scheduled and nothing resolved; in `RUNNING` there is
exactly one pending registration, the wait handle is the promise both
listeners capture, and nothing is resolved yet; in a terminal state nothing
is pending and exactly one promise was resolved, with the value matching the
state. -/
def Inv (w : TimerWorld) : Prop :=
  match w.timerState with
  | TState.SET =>
      w.timerPromise = none ∧ w.timerHandle = none ∧ w.activeTimeouts = [] ∧
      w.timerupListener = none ∧ w.timercancelledListener = none ∧
      w.resolved = []
  | TState.RUNNING =>
      ∃ p h, w.timerPromise = some p ∧ w.timerHandle = some h ∧
        w.activeTimeouts = [h] ∧ w.timerupListener = some p ∧
        w.timercancelledListener = some p ∧ w.resolved = []
  | TState.DONE =>
      w.timerPromise = none ∧ w.timerHandle = none ∧ w.activeTimeouts = [] ∧
      ∃ p, w.resolved = [(p, TState.DONE)]
  | TState.CANCELLED =>
      w.timerPromise = none ∧ w.timerHandle = none ∧ w.activeTimeouts = [] ∧
      ∃ p, w.resolved = [(p, TState.CANCELLED)]

/-- The world produced by `new SimpleTimer(200)`: the concrete run used as a
test fixture below. -/
def wSet200 : TimerWorld :=
  { timerTimeout := 200
    timerState := TState.SET
    timerPromise := none
    timerHandle := none
    nextPromiseId := 0
    nextTimeoutId := 0
    resolved := []
    activeTimeouts := []
    timerupListener := none
    timercancelledListener := none }

/-- The world after `start()` on `wSet200`: promise 0 pending, timeout
registration 0 scheduled. -/
def wRun200 : TimerWorld :=
  { timerTimeout := 200
    timerState := TState.RUNNING
    timerPromise := some 0
    timerHandle := some 0
    nextPromiseId := 1
    nextTimeoutId := 1
    resolved := []
    activeTimeouts := [0]
    timerupListener := some 0
    timercancelledListener := some 0 }

/-- The world after `cancel()` on `wRun200`: promise 0 resolved to
`CANCELLED`, nothing pending (note the `timerup` once-listener is still
registered — only the fired listener was consumed — but no registration can
ever emit again). -/
def wCan200 : TimerWorld :=
  { timerTimeout := 200
    timerState := TState.CANCELLED
    timerPromise := none
    timerHandle := none
    nextPromiseId := 1
    nextTimeoutId := 1
    resolved := [(0, TState.CANCELLED)]
    activeTimeouts := []
    timerupListener := some 0
    timercancelledListener := none }

/-- A successful construction yields the invariant (the `SET` case). -/
theorem inv_construct (v : JSValue) (w : TimerWorld)
    (h : construct v = .ok w) : Inv w := by
  unfold construct at h
  split at h
  · cases h
  · split at h
    · cases h
    · cases h
      simp [Inv]

/-- `start()` throws before it mutates anything: an error result carries the
caller's world unchanged. -/
theorem start_error_world (w w1 : TimerWorld) (e : TimerError)
    (h : start w = .error (e, w1)) : w1 = w := by
  unfold start at h
  split at h
  · cases h
  · split at h
    · simp only [Except.error.injEq, Prod.mk.injEq] at h
      exact h.2.symm
    · cases h

/-- `cancel()` throws before it mutates anything: an error result carries the
caller's world unchanged. -/
theorem cancel_error_world (w w1 : TimerWorld) (e : TimerError)
    (h : cancel w = .error (e, w1)) : w1 = w := by
  unfold cancel at h
  split at h
  · simp only [Except.error.injEq, Prod.mk.injEq] at h
    exact h.2.symm
  · cases h

/-- Explicit form of a successful `start()` from the `SET` state. -/
theorem start_of_set (w : TimerWorld) (hst : w.timerState = TState.SET) :
    start w =
      .ok ({ w with nextPromiseId := w.nextPromiseId + 1
                    timerPromise := some w.nextPromiseId
                    timerupListener := some w.nextPromiseId
                    timercancelledListener := some w.nextPromiseId
                    nextTimeoutId := w.nextTimeoutId + 1
                    activeTimeouts := w.nextTimeoutId :: w.activeTimeouts
                    timerHandle := some w.nextTimeoutId
                    timerState := TState.RUNNING },
           some w.nextPromiseId) := by
  obtain ⟨tt, st, tp, th, np, nt, res, act, tul, tcl⟩ := w
  simp only at hst
  subst hst
  simp [start]

/-- `start()` while `RUNNING` returns the stored promise field and changes
nothing. -/
theorem start_of_running (w : TimerWorld) (hst : w.timerState = TState.RUNNING) :
    start w = .ok (w, w.timerPromise) := by
  unfold start
  rw [if_pos hst]

/-- `start()` in a terminal state throws `NOT_IN_SET_OR_RUNNING_STATES`
leaving the world unchanged. -/
theorem start_of_terminal (w : TimerWorld)
    (hst : w.timerState = TState.DONE ∨ w.timerState = TState.CANCELLED) :
    start w = .error (.ERROR_SIMPLE_TIMER_NOT_IN_SET_OR_RUNNING_STATES, w) := by
  unfold start
  rcases hst with h | h <;> rw [h] <;> simp

/-- `cancel()` outside the `RUNNING` state throws `NOT_RUNNING` leaving the
world unchanged. -/
theorem cancel_of_not_running (w : TimerWorld)
    (hst : w.timerState ≠ TState.RUNNING) :
    cancel w = .error (.ERROR_SIMPLE_TIMER_NOT_RUNNING, w) := by
  unfold cancel
  rw [if_pos hst]

/-- Explicit form of a successful `cancel()` from a `RUNNING` world that
satisfies the invariant's `RUNNING` shape. -/
theorem cancel_of_running (w : TimerWorld) (p h : Nat)
    (hst : w.timerState = TState.RUNNING)
    (hh : w.timerHandle = some h)
    (hl : w.timercancelledListener = some p)
    (hres : w.resolved = []) :
    cancel w =
      .ok ({ w with activeTimeouts := w.activeTimeouts.erase h
                    timercancelledListener := none
                    timerHandle := none
                    timerPromise := none
                    timerState := TState.CANCELLED
                    resolved := [(p, TState.CANCELLED)] },
           none) := by
  obtain ⟨tt, st, tp, th, np, nt, res, act, tul, tcl⟩ := w
  simp only at hst hh hl hres
  subst hst hh hl hres
  simp [cancel, jsClearTimeout, emitTimercancelled, runTimercancelledListener,
        resolvePromise]

/-- Explicit form of the expiry firing on a `RUNNING` world that satisfies
the invariant's `RUNNING` shape. -/
theorem fireTimeout_of_running (w : TimerWorld) (p h : Nat)
    (hl : w.timerupListener = some p)
    (hres : w.resolved = []) :
    fireTimeout w h =
      { w with activeTimeouts := w.activeTimeouts.erase h
               timerupListener := none
               timerHandle := none
               timerPromise := none
               timerState := TState.DONE
               resolved := [(p, TState.DONE)] } := by
  obtain ⟨tt, st, tp, th, np, nt, res, act, tul, tcl⟩ := w
  simp only at hl hres
  subst hl hres
  simp [fireTimeout, emitTimerup, runTimerupListener, resolvePromise]

/-- Every event preserves the invariant. -/
theorem inv_step (w w' : TimerWorld) (hi : Inv w) (hs : Step w w') : Inv w' := by
  cases hs with
  | startOk _ r heq =>
    rcases hst : w.timerState with _ | _ | _ | _
    · rw [start_of_set w hst] at heq
      simp only [Inv, hst] at hi
      obtain ⟨hp, hh, ha, -, -, hres⟩ := hi
      simp only [Except.ok.injEq, Prod.mk.injEq] at heq
      obtain ⟨hw, -⟩ := heq
      rw [← hw]
      exact ⟨w.nextPromiseId, w.nextTimeoutId, rfl, rfl, by rw [ha], rfl, rfl,
        hres⟩
    · rw [start_of_running w hst] at heq
      simp only [Except.ok.injEq, Prod.mk.injEq] at heq
      obtain ⟨hw, -⟩ := heq
      rw [← hw]
      exact hi
    · rw [start_of_terminal w (Or.inl hst)] at heq
      cases heq
    · rw [start_of_terminal w (Or.inr hst)] at heq
      cases heq
  | startErr _ e heq =>
    rw [start_error_world w w' e heq]
    exact hi
  | cancelOk _ r heq =>
    rcases hst : w.timerState with _ | _ | _ | _
    · rw [cancel_of_not_running w (by rw [hst]; decide)] at heq
      cases heq
    · simp only [Inv, hst] at hi
      obtain ⟨p, h, hp, hh, ha, hul, hcl, hres⟩ := hi
      rw [cancel_of_running w p h hst hh hcl hres] at heq
      simp only [Except.ok.injEq, Prod.mk.injEq] at heq
      obtain ⟨hw, -⟩ := heq
      rw [← hw]
      exact ⟨rfl, rfl, by simp [ha], ⟨p, rfl⟩⟩
    · rw [cancel_of_not_running w (by rw [hst]; decide)] at heq
      cases heq
    · rw [cancel_of_not_running w (by rw [hst]; decide)] at heq
      cases heq
  | cancelErr _ e heq =>
    rw [cancel_error_world w w' e heq]
    exact hi
  | fire h hmem =>
    rcases hst : w.timerState with _ | _ | _ | _
    · simp only [Inv, hst] at hi
      rw [hi.2.2.1] at hmem
      cases hmem
    · simp only [Inv, hst] at hi
      obtain ⟨p, h0, hp, hh, ha, hul, hcl, hres⟩ := hi
      have hh0 : h = h0 := by
        rw [ha] at hmem
        simpa using hmem
      rw [fireTimeout_of_running w p h hul hres]
      exact ⟨rfl, rfl, by simp [ha, hh0], ⟨p, rfl⟩⟩
    · simp only [Inv, hst] at hi
      rw [hi.2.2.1] at hmem
      cases hmem
    · simp only [Inv, hst] at hi
      rw [hi.2.2.1] at hmem
      cases hmem

/-- From a terminal world satisfying the invariant, every single event leaves
the world unchanged: both methods throw and no registration can fire. -/
theorem step_terminal_eq (w w' : TimerWorld) (hi : Inv w)
    (hterm : w.timerState = TState.DONE ∨ w.timerState = TState.CANCELLED)
    (hs : Step w w') : w' = w := by
  have hact : w.activeTimeouts = [] := by
    rcases hterm with h | h <;> simp only [Inv, h] at hi <;> exact hi.2.2.1
  have hnr : w.timerState ≠ TState.RUNNING := by
    rcases hterm with h | h <;> rw [h] <;> decide
  cases hs with
  | startOk _ r heq =>
    rw [start_of_terminal w hterm] at heq
    cases heq
  | startErr _ e heq =>
    exact start_error_world w w' e heq
  | cancelOk _ r heq =>
    rw [cancel_of_not_running w hnr] at heq
    cases heq
  | cancelErr _ e heq =>
    exact cancel_error_world w w' e heq
  | fire h hmem =>
    rw [hact] at hmem
    cases hmem

/-- From a terminal world satisfying the invariant, every finite sequence of
events leaves the world unchanged. -/
theorem steps_terminal_eq (w w' : TimerWorld) (hi : Inv w)
    (hterm : w.timerState = TState.DONE ∨ w.timerState = TState.CANCELLED)
    (hs : Steps w w') : w' = w := by
  induction hs with
  | refl => rfl
  | tail wmid wfin hs1 hstep ih =>
    rw [ih] at hstep
    exact step_terminal_eq w wfin hi hterm hstep

/-- The invariant holds along any finite sequence of events. -/
theorem inv_steps (w w' : TimerWorld) (hi : Inv w) (hs : Steps w w') :
    Inv w' := by
  induction hs with
  | refl => exact hi
  | tail wmid wfin hs1 hstep ih => exact inv_step wmid wfin ih hstep

/-- The invariant holds in every reachable world. -/
theorem inv_reachable (w : TimerWorld) (hr : Reachable w) : Inv w := by
  obtain ⟨v, w0, hc, hs⟩ := hr
  exact inv_steps w0 w (inv_construct v w0 hc) hs

/-- C1: the claim says `cancel()` on a `RUNNING` timer returns the same wait
handle previously returned by `start()` (the stored `pendingWait`), now
resolved to `CANCELLED`.  The code disagrees with the claim and with its own
JSDoc: `emit("timercancelled")` runs the once-listener synchronously, the
listener sets `#timerPromise = null`, and only then does `cancel()` read and
return `#timerPromise` — so `cancel()` returns `null`, not the handle
`start()` returned.  The handle `start()` returned (promise 0) does resolve
to `CANCELLED`; it is only the return value of `cancel()` that is wrong.
This theorem evaluates the code on the failing input
`new SimpleTimer(200)` → `start()` → `cancel()`. -/
theorem c1_cancel_returns_null_not_the_wait_handle :
    construct (JSValue.number 200) = .ok wSet200 ∧
    start wSet200 = .ok (wRun200, some 0) ∧
    cancel wRun200 = .ok (wCan200, none) ∧
    (some 0 : Option Nat) ≠ none ∧
    wCan200.resolved.lookup 0 = some TState.CANCELLED ∧
    wCan200.timerState = TState.CANCELLED :=
  ⟨rfl, rfl, rfl, by decide, rfl, rfl⟩

/-- C2: idempotent join — a second `start()` on a `RUNNING` timer returns
exactly the in-flight wait handle the first `start()` created and stored as
`#timerPromise`, leaves the world completely unchanged (hence performs no
transition and schedules nothing), so every such caller shares one handle
and one resolution. -/
theorem c2_start_idempotent_join (w w' : TimerWorld) (r : Option Nat)
    (hset : w.timerState = TState.SET) (h1 : start w = .ok (w', r)) :
    start w' = .ok (w', r) ∧ w'.timerState = TState.RUNNING ∧
      r = w'.timerPromise := by
  rw [start_of_set w hset] at h1
  simp only [Except.ok.injEq, Prod.mk.injEq] at h1
  obtain ⟨hw, hr⟩ := h1
  rw [← hw, ← hr]
  refine ⟨?_, rfl, rfl⟩
  rw [start_of_running _ rfl]

/-- Witness for C2 at the concrete run `new SimpleTimer(200)` → `start()`. -/
theorem c2_start_idempotent_join_witness :
    start wRun200 = .ok (wRun200, some 0) ∧
    wRun200.timerState = TState.RUNNING ∧
    (some 0 : Option Nat) = wRun200.timerPromise :=
  c2_start_idempotent_join wSet200 wRun200 (some 0) rfl rfl

/-- C4: for every whole number `t ≥ 1`, construction succeeds, the state is
`SET`, the timeout stored is `t`, and no delayed execution is scheduled. -/
theorem c4_create_whole_ge_one (t : ℤ) (ht : 1 ≤ t) :
    ∃ w : TimerWorld, construct (JSValue.number (t : ℚ)) = .ok w ∧
      w.timerState = TState.SET ∧ w.timerTimeout = (t : ℚ) ∧
      w.activeTimeouts = [] ∧ w.timerHandle = none := by
  have h1 : jsNumberIsInteger (JSValue.number (t : ℚ)) = true := by
    simp [jsNumberIsInteger, Rat.den_intCast]
  have h2 : jsLtOne (JSValue.number (t : ℚ)) = false := by
    simp only [jsLtOne, decide_eq_false_iff_not, not_lt]
    exact_mod_cast ht
  refine ⟨{ timerTimeout := (t : ℚ), timerState := TState.SET,
            timerPromise := none, timerHandle := none, nextPromiseId := 0,
            nextTimeoutId := 0, resolved := [], activeTimeouts := [],
            timerupListener := none, timercancelledListener := none },
          ?_, rfl, rfl, rfl, rfl⟩
  simp [construct, h1, h2, jsNumberValue]

/-- Witness for C4 at `t = 200`. -/
theorem c4_create_whole_ge_one_witness :
    1 ≤ (200 : ℤ) ∧
    ∃ w : TimerWorld, construct (JSValue.number ((200 : ℤ) : ℚ)) = .ok w ∧
      w.timerState = TState.SET ∧ w.timerTimeout = ((200 : ℤ) : ℚ) ∧
      w.activeTimeouts = [] ∧ w.timerHandle = none :=
  ⟨by decide, c4_create_whole_ge_one 200 (by decide)⟩

/-- C5: construction raises-iff — any argument that is not a whole number
(not a finite JS number with integer value) fails with
`ERROR_SIMPLE_TIMER_TIMEOUT_TYPE_INVALID`; a whole number below 1 fails with
`ERROR_SIMPLE_TIMER_TIMEOUT_OUT_OF_BOUNDS`; every other input (a whole
number at least 1) raises no error. -/
theorem c5_construct_raises_iff (x : JSValue) :
    (¬ (∃ q : ℚ, x = JSValue.number q ∧ q.den = 1) →
      construct x = .error TimerError.ERROR_SIMPLE_TIMER_TIMEOUT_TYPE_INVALID) ∧
    (∀ q : ℚ, x = JSValue.number q → q.den = 1 → q < 1 →
      construct x = .error TimerError.ERROR_SIMPLE_TIMER_TIMEOUT_OUT_OF_BOUNDS) ∧
    (∀ q : ℚ, x = JSValue.number q → q.den = 1 → 1 ≤ q →
      ∃ w, construct x = .ok w) := by
  refine ⟨?_, ?_, ?_⟩
  · intro hnw
    have hni : jsNumberIsInteger x = false := by
      cases x with
      | number q =>
        simp only [jsNumberIsInteger, beq_eq_false_iff_ne, ne_eq]
        intro hden
        exact hnw ⟨q, rfl, hden⟩
      | nan => rfl
      | infinityPos => rfl
      | infinityNeg => rfl
      | undefinedV => rfl
      | stringV s => rfl
      | objectV => rfl
    simp [construct, hni]
  · intro q hx hden hlt
    rw [hx]
    simp [construct, jsNumberIsInteger, jsLtOne, hden, hlt]
  · intro q hx hden hge
    rw [hx]
    refine ⟨{ timerTimeout := q, timerState := TState.SET,
              timerPromise := none, timerHandle := none, nextPromiseId := 0,
              nextTimeoutId := 0, resolved := [], activeTimeouts := [],
              timerupListener := none, timercancelledListener := none }, ?_⟩
    simp [construct, jsNumberIsInteger, jsLtOne, hden, not_lt.mpr hge,
          jsNumberValue]

/-- Witness for C5: `undefined` gives the type error, `0` gives the bounds
error, `200` succeeds. -/
theorem c5_construct_raises_iff_witness :
    construct JSValue.undefinedV =
      .error TimerError.ERROR_SIMPLE_TIMER_TIMEOUT_TYPE_INVALID ∧
    construct (JSValue.number (mkRat 0 1)) =
      .error TimerError.ERROR_SIMPLE_TIMER_TIMEOUT_OUT_OF_BOUNDS ∧
    ∃ w, construct (JSValue.number (mkRat 200 1)) = .ok w :=
  ⟨(c5_construct_raises_iff JSValue.undefinedV).1
      (fun hex => by obtain ⟨q, hq, -⟩ := hex; cases hq),
   (c5_construct_raises_iff (JSValue.number (mkRat 0 1))).2.1 (mkRat 0 1)
      rfl (by decide) (by decide),
   (c5_construct_raises_iff (JSValue.number (mkRat 200 1))).2.2 (mkRat 200 1)
      rfl (by decide) (by decide)⟩

/-- C6: atomicity on failure — a `start()` or `cancel()` call that throws
leaves every field of the timer exactly as it was (the thrown error carries
the world at the moment of the throw, and it equals the caller's world); in
particular `cancel()` on a `SET` timer fails with `NOT_RUNNING` and the
world, state included, is unchanged. -/
theorem c6_atomic_failure (w : TimerWorld) :
    (∀ e w1, start w = .error (e, w1) → w1 = w) ∧
    (∀ e w1, cancel w = .error (e, w1) → w1 = w) ∧
    (w.timerState = TState.SET →
      cancel w = .error (TimerError.ERROR_SIMPLE_TIMER_NOT_RUNNING, w)) := by
  refine ⟨fun e w1 h => start_error_world w w1 e h,
          fun e w1 h => cancel_error_world w w1 e h,
          fun hset => cancel_of_not_running w (by rw [hset]; decide)⟩

/-- Witness for C6 at the concrete `SET` world of `new SimpleTimer(200)`. -/
theorem c6_atomic_failure_witness :
    cancel wSet200 =
      .error (TimerError.ERROR_SIMPLE_TIMER_NOT_RUNNING, wSet200) :=
  (c6_atomic_failure wSet200).2.2 rfl

/-- C10: validation order — an input that is not a whole number (even one
that is also numerically below 1, such as `-0.5`) always fails with
`ERROR_SIMPLE_TIMER_TIMEOUT_TYPE_INVALID`, never with
`ERROR_SIMPLE_TIMER_TIMEOUT_OUT_OF_BOUNDS`: the `Number.isInteger` check is
decided before the lower-bound check. -/
theorem c10_validation_order (x : JSValue)
    (hnw : ¬ (∃ q : ℚ, x = JSValue.number q ∧ q.den = 1))
    (hlt : ∀ q : ℚ, x = JSValue.number q → q < 1) :
    construct x = .error TimerError.ERROR_SIMPLE_TIMER_TIMEOUT_TYPE_INVALID ∧
    construct x ≠
      .error TimerError.ERROR_SIMPLE_TIMER_TIMEOUT_OUT_OF_BOUNDS := by
  have hni : jsNumberIsInteger x = false := by
    cases x with
    | number q =>
      simp only [jsNumberIsInteger, beq_eq_false_iff_ne, ne_eq]
      intro hden
      exact hnw ⟨q, rfl, hden⟩
    | nan => rfl
    | infinityPos => rfl
    | infinityNeg => rfl
    | undefinedV => rfl
    | stringV s => rfl
    | objectV => rfl
  have h1 :
      construct x =
        .error TimerError.ERROR_SIMPLE_TIMER_TIMEOUT_TYPE_INVALID := by
    simp [construct, hni]
  refine ⟨h1, ?_⟩
  rw [h1]
  simp

/-- Witness for C10 at `-0.5`, a value that is both not a whole number and
below 1. -/
theorem c10_validation_order_witness :
    construct (JSValue.number (mkRat (-1) 2)) =
      .error TimerError.ERROR_SIMPLE_TIMER_TIMEOUT_TYPE_INVALID ∧
    construct (JSValue.number (mkRat (-1) 2)) ≠
      .error TimerError.ERROR_SIMPLE_TIMER_TIMEOUT_OUT_OF_BOUNDS :=
  c10_validation_order (JSValue.number (mkRat (-1) 2))
    (fun hex => by
      obtain ⟨q, hq, hden⟩ := hex
      cases hq
      exact absurd hden (by decide))
    (fun q hq => by cases hq; decide)

/-- The fixture world `wSet200` is reachable: it is `new SimpleTimer(200)`. -/
theorem wSet200_reachable : Reachable wSet200 :=
  ⟨JSValue.number 200, wSet200, rfl, Steps.refl wSet200⟩

/-- The fixture world `wRun200` is reachable: `new SimpleTimer(200)` then
`start()`. -/
theorem wRun200_reachable : Reachable wRun200 :=
  ⟨JSValue.number 200, wSet200, rfl,
    Steps.tail _ _ _ (Steps.refl wSet200)
      (Step.startOk wSet200 wRun200 (some 0) rfl)⟩

/-- The fixture world `wCan200` is reachable: `new SimpleTimer(200)`,
`start()`, `cancel()`. -/
theorem wCan200_reachable : Reachable wCan200 :=
  ⟨JSValue.number 200, wSet200, rfl,
    Steps.tail _ _ _
      (Steps.tail _ _ _ (Steps.refl wSet200)
        (Step.startOk wSet200 wRun200 (some 0) rfl))
      (Step.cancelOk wRun200 wCan200 none rfl)⟩

/-- C3: terminal immutability — in any reachable world whose state is `DONE`
or `CANCELLED`, `start()` throws `NOT_IN_SET_OR_RUNNING_STATES`, `cancel()`
throws `NOT_RUNNING` (both leaving the world unchanged), and no sequence of
further events changes the world, so the state never changes again. -/
theorem c3_terminal_immutability (w : TimerWorld) (hr : Reachable w)
    (hterm : w.timerState = TState.DONE ∨ w.timerState = TState.CANCELLED) :
    start w =
      .error (TimerError.ERROR_SIMPLE_TIMER_NOT_IN_SET_OR_RUNNING_STATES, w) ∧
    cancel w = .error (TimerError.ERROR_SIMPLE_TIMER_NOT_RUNNING, w) ∧
    ∀ w', Steps w w' → w' = w := by
  have hi := inv_reachable w hr
  refine ⟨start_of_terminal w hterm, cancel_of_not_running w ?_, ?_⟩
  · rcases hterm with h | h <;> rw [h] <;> decide
  · intro w' hs
    exact steps_terminal_eq w w' hi hterm hs

/-- Witness for C3 at the cancelled fixture world. -/
theorem c3_terminal_immutability_witness :
    start wCan200 =
      .error (TimerError.ERROR_SIMPLE_TIMER_NOT_IN_SET_OR_RUNNING_STATES,
              wCan200) ∧
    cancel wCan200 =
      .error (TimerError.ERROR_SIMPLE_TIMER_NOT_RUNNING, wCan200) := by
  have h := c3_terminal_immutability wCan200 wCan200_reachable (Or.inr rfl)
  exact ⟨h.1, h.2.1⟩

/-- C7: cancel-before-expiry race freedom — if `cancel()` succeeds (which
can only happen while the timer is `RUNNING`, i.e. strictly before the
expiry fired, since firing leaves `RUNNING`), then afterwards the state is
`CANCELLED`, no timeout registration is pending (the scheduled expiry was
revoked and can never fire), the wait handle is resolved to `CANCELLED`, and
no further event changes anything — so the handle never resolves to `DONE`
and `DONE` is never delivered. -/
theorem c7_cancel_race_freedom (w w' : TimerWorld) (r : Option Nat) (p : Nat)
    (hr : Reachable w) (hp : w.timerPromise = some p)
    (hc : cancel w = .ok (w', r)) :
    w'.timerState = TState.CANCELLED ∧ w'.activeTimeouts = [] ∧
    w'.resolved.lookup p = some TState.CANCELLED ∧
    ∀ w'', Steps w' w'' → w'' = w' := by
  have hi0 := inv_reachable w hr
  have hcopy := hc
  have hrun : w.timerState = TState.RUNNING := by
    by_contra hne
    rw [cancel_of_not_running w hne] at hc
    cases hc
  have hi := hi0
  simp only [Inv, hrun] at hi
  obtain ⟨p0, h, hp0, hh, ha, hul, hcl, hres⟩ := hi
  have hpp : p0 = p := by
    rw [hp0] at hp
    exact Option.some.inj hp
  rw [cancel_of_running w p0 h hrun hh hcl hres] at hc
  simp only [Except.ok.injEq, Prod.mk.injEq] at hc
  obtain ⟨hw, -⟩ := hc
  have hi' : Inv w' := inv_step w w' hi0 (Step.cancelOk w w' r hcopy)
  have hterm : w'.timerState = TState.CANCELLED := by rw [← hw]
  refine ⟨hterm, ?_, ?_, ?_⟩
  · rw [← hw]
    simp [ha]
  · rw [← hw, hpp]
    simp [List.lookup]
  · intro w'' hs
    exact steps_terminal_eq w' w'' hi' (Or.inr hterm) hs

/-- Witness for C7 at the concrete run `new SimpleTimer(200)` → `start()` →
`cancel()`. -/
theorem c7_cancel_race_freedom_witness :
    wCan200.timerState = TState.CANCELLED ∧ wCan200.activeTimeouts = [] ∧
    wCan200.resolved.lookup 0 = some TState.CANCELLED := by
  have h := c7_cancel_race_freedom wRun200 wCan200 none 0 wRun200_reachable
    rfl rfl
  exact ⟨h.1, h.2.1, h.2.2.1⟩

/-- C8: state invariant — in every reachable world, the `pendingWait` handle
(`#timerPromise`) is non-null exactly when the state is `RUNNING`. -/
theorem c8_pendingWait_iff_running (w : TimerWorld) (hr : Reachable w) :
    w.timerPromise ≠ none ↔ w.timerState = TState.RUNNING := by
  have hi := inv_reachable w hr
  rcases hst : w.timerState with _ | _ | _ | _ <;>
    simp only [Inv, hst] at hi
  · simp [hi.1, hst]
  · obtain ⟨p, h, hp, -⟩ := hi
    simp [hp, hst]
  · simp [hi.1, hst]
  · simp [hi.1, hst]

/-- Witness for C8 at the running fixture world. -/
theorem c8_pendingWait_iff_running_witness :
    wRun200.timerPromise ≠ none ↔ wRun200.timerState = TState.RUNNING :=
  c8_pendingWait_iff_running wRun200 wRun200_reachable

/-- C9: expiry transition — when the pending registration of a reachable
running timer fires, the handles `#timerHandle` and `#timerPromise` are
cleared, the state becomes `DONE`, and the wait handle is resolved with
`DONE`; that resolution happens exactly once: the promise was unresolved
before the firing, afterwards the settlement map is exactly the one entry
`(p, DONE)`, and it stays so under every further event. -/
theorem c9_expiry_transition (w : TimerWorld) (p h : Nat)
    (hr : Reachable w) (hrun : w.timerState = TState.RUNNING)
    (hp : w.timerPromise = some p) (hmem : h ∈ w.activeTimeouts) :
    (fireTimeout w h).timerHandle = none ∧
    (fireTimeout w h).timerPromise = none ∧
    (fireTimeout w h).timerState = TState.DONE ∧
    w.resolved.lookup p = none ∧
    (fireTimeout w h).resolved = [(p, TState.DONE)] ∧
    ∀ w', Steps (fireTimeout w h) w' → w'.resolved = [(p, TState.DONE)] := by
  have hi0 := inv_reachable w hr
  have hi := hi0
  simp only [Inv, hrun] at hi
  obtain ⟨p0, h0, hp0, hh, ha, hul, hcl, hres⟩ := hi
  have hpp : p0 = p := by
    rw [hp0] at hp
    exact Option.some.inj hp
  have hfeq := fireTimeout_of_running w p0 h hul hres
  have hi' : Inv (fireTimeout w h) := inv_step w _ hi0 (Step.fire w h hmem)
  have hstate : (fireTimeout w h).timerState = TState.DONE := by rw [hfeq]
  refine ⟨by rw [hfeq], by rw [hfeq], hstate, by rw [hres]; rfl,
          by rw [hfeq, hpp], ?_⟩
  intro w' hs
  rw [steps_terminal_eq _ w' hi' (Or.inl hstate) hs, hfeq, hpp]

/-- Witness for C9 at the concrete run `new SimpleTimer(200)` → `start()`
with registration 0 firing. -/
theorem c9_expiry_transition_witness :
    (fireTimeout wRun200 0).timerState = TState.DONE ∧
    (fireTimeout wRun200 0).resolved = [(0, TState.DONE)] := by
  have h := c9_expiry_transition wRun200 0 0 wRun200_reachable rfl rfl
    (by decide)
  exact ⟨h.2.2.1, h.2.2.2.2.1⟩

end SimpleTimerSpec
